import Mathlib

/-!
Verification of the urban-uav-backend service (`src/fastapi/main.py`).

Shallow embedding notes:
* A result row produced by the `RealDictCursor` is a Python dict; we model it as an
  association list `Row := List (String × Value)` whose keys are unique (Python dicts
  cannot hold duplicate keys), preserving insertion order as the dict does.
* Python scalar values are modelled by the inductive `Value`; SQL `NULL` / Python
  `None` is `Value.null`.  The handlers never compute on attribute or geometry
  values (they only compare the geometry against `None`), so geometry JSON payloads
  can be represented by any `Value`.
* The bbox query parameters are floats in the source, but the code only tests them
  for presence (`is not None`) and passes them through to the driver unchanged, so
  they are modelled as opaque scalars of type `Int`.
* The database driver (psycopg2 connect / cursor / execute / fetchall) is modelled
  as a function `DB := String → List Int → Except String (List Row)`: given the
  query text and the parameter tuple it either returns the rows or raises an
  exception carrying its message (`str(e)`).
-/

set_option autoImplicit false

namespace UavBackend

/-- A Python/JSON scalar value as handled by the endpoint code.  `null` is Python
`None` (and SQL `NULL`); geometry JSON documents are opaque to the handlers and can
be represented by any non-null constructor. -/
inductive Value where
  | null : Value
  | int (n : Int) : Value
  | str (s : String) : Value
  | bool (b : Bool) : Value
deriving DecidableEq

/-- A result row: a Python dict modelled as an insertion-ordered association list. -/
def Row : Type := List (String × Value)

instance : DecidableEq Row := inferInstanceAs (DecidableEq (List (String × Value)))

/-- Dict lookup: value stored under key `k`, if the key is present. -/
def lookupKey (r : Row) (k : String) : Option Value :=
  (List.find? (fun p => p.1 == k) r).map Prod.snd

/-- Dict key removal: the row without the binding for `k` (for rows with unique
keys, removing every binding of `k` coincides with Python `dict.pop`). -/
def removeKey (r : Row) (k : String) : Row :=
  List.filter (fun p => p.1 != k) r

/-- `r.pop(k, None)` as an expression: the stored value if the key is present,
Python `None` otherwise. -/
def popDefault (r : Row) (k : String) : Value :=
  (lookupKey r k).getD Value.null

/-- The database driver: maps (query text, parameter tuple) to either the result
rows or the text of the exception it raises. -/
def DB : Type := String → List Int → Except String (List Row)

/-- The SQL `SELECT` built for the 2d-corridors dataset, transcribed from the
triple-quoted literal in `get_2d_corridors_geojson`. -/
def select2d : String :=
  "\n                SELECT id, \"OBJECTID\", \"PLN_AREA_N\", \"PLN_AREA_C\", \"CA_IND\", \"REGION_N\", \"REGION_C\",\n"
  ++ "                    \"INC_CRC\", \"FMEL_UPD_D\", \"SHAPE.AREA\", \"SHAPE.LEN\", \"Total_Population\",\n"
  ++ "                    \"Total_Males\", \"Total_Females\", \"LabourForce_Total_Total\", \"LabourForce_Total_Males\",\n"
  ++ "                    \"LabourForce_Total_Females\", \"LabourForce_Employed_Total\", \"LabourForce_Employed_Males\",\n"
  ++ "                    \"LabourForce_Employed_Females\", \"LabourForce_Unemployed_Total\", \"LabourForce_Unemployed_Males\",\n"
  ++ "                    \"LabourForce_Unemployed_Females\", \"OutsidetheLabourForce_Total\", \"OutsidetheLabourForce_Males\",\n"
  ++ "                    \"OutsidetheLabourForce_Females\", \"Area_km2\", \"Pop_Density\", \"priorityID\",\n"
  ++ "                    ST_AsGeoJSON(geom)::json AS geom\n"
  ++ "                FROM corridors_2d_4326\n"
  ++ "            "

/-- The SQL `SELECT` built for the 3d-network dataset, transcribed from the
triple-quoted literal in `get_3d_network_geojson`. -/
def select3d : String :=
  "\n                SELECT id, min_altitude, corridor_type, max_altitude, volume_m3, \"priorityID\",\n"
  ++ "                    ST_AsGeoJSON(geom)::json AS geom\n"
  ++ "                FROM network_3d_4326\n"
  ++ "            "

/-- The SQL `SELECT` built for the hdb-footprints dataset, transcribed from the
triple-quoted literal in `get_hdb_footprints_geojson`. -/
def selectHdb : String :=
  "\n                SELECT id, feat_id, height, levels,\n"
  ++ "                    ST_AsGeoJSON(geom)::json AS geom\n"
  ++ "                FROM hdb_footprints_4326\n"
  ++ "            "

/-- Query construction of `get_2d_corridors_geojson`: starting from `select2d`,
append the spatial predicate and extend the parameter list exactly when all four
bbox values are given, then append the ordering clause. -/
def query2d (min_lon min_lat max_lon max_lat : Option Int) : String × List Int :=
  let query := select2d
  let withBbox : String × List Int :=
    match min_lon, min_lat, max_lon, max_lat with
    | some w, some x, some y, some z =>
        (query ++ " WHERE ST_Intersects(geom, ST_MakeEnvelope(%s, %s, %s, %s, 4326))", [w, x, y, z])
    | _, _, _, _ => (query, [])
  (withBbox.1 ++ " ORDER BY id", withBbox.2)

/-- Query construction of `get_3d_network_geojson`. -/
def query3d (min_lon min_lat max_lon max_lat : Option Int) : String × List Int :=
  let query := select3d
  let withBbox : String × List Int :=
    match min_lon, min_lat, max_lon, max_lat with
    | some w, some x, some y, some z =>
        (query ++ " WHERE ST_Intersects(geom, ST_MakeEnvelope(%s, %s, %s, %s, 4326))", [w, x, y, z])
    | _, _, _, _ => (query, [])
  (withBbox.1 ++ " ORDER BY id", withBbox.2)

/-- Query construction of `get_hdb_footprints_geojson`. -/
def queryHdb (min_lon min_lat max_lon max_lat : Option Int) : String × List Int :=
  let query := selectHdb
  let withBbox : String × List Int :=
    match min_lon, min_lat, max_lon, max_lat with
    | some w, some x, some y, some z =>
        (query ++ " WHERE ST_Intersects(geom, ST_MakeEnvelope(%s, %s, %s, %s, 4326))", [w, x, y, z])
    | _, _, _, _ => (query, [])
  (withBbox.1 ++ " ORDER BY id", withBbox.2)

/-- A GeoJSON Feature as assembled by the handlers:
`{"type": ..., "properties": ..., "geometry": ...}`. -/
structure Feature where
  ftype : String
  properties : Row
  geometry : Value
deriving DecidableEq

/-- A GeoJSON FeatureCollection as assembled by the handlers:
`{"type": ..., "features": ...}`. -/
structure FeatureCollection where
  ctype : String
  features : List Feature
deriving DecidableEq

/-- The row loop of `get_2d_corridors_geojson`: pop `geom`, pop `id`, skip the row
when the popped geometry is `None`, otherwise append one Feature. -/
def features2d : List Row → List Feature
  | [] => []
  | r :: rest =>
      let geom := popDefault r "geom"
      let rRest := removeKey (removeKey r "geom") "id"
      if geom = Value.null then features2d rest
      else { ftype := "Feature", properties := rRest, geometry := geom } :: features2d rest

/-- The row loop of `get_3d_network_geojson` (textually duplicated in the source). -/
def features3d : List Row → List Feature
  | [] => []
  | r :: rest =>
      let geom := popDefault r "geom"
      let rRest := removeKey (removeKey r "geom") "id"
      if geom = Value.null then features3d rest
      else { ftype := "Feature", properties := rRest, geometry := geom } :: features3d rest

/-- The row loop of `get_hdb_footprints_geojson` (textually duplicated in the source). -/
def featuresHdb : List Row → List Feature
  | [] => []
  | r :: rest =>
      let geom := popDefault r "geom"
      let rRest := removeKey (removeKey r "geom") "id"
      if geom = Value.null then featuresHdb rest
      else { ftype := "Feature", properties := rRest, geometry := geom } :: featuresHdb rest

/-- `get_2d_corridors_geojson`: build the query, execute it against the store, and
wrap the surviving rows in a FeatureCollection.  A driver exception propagates. -/
def get_2d_corridors_geojson (db : DB) (min_lon min_lat max_lon max_lat : Option Int) :
    Except String FeatureCollection :=
  let qp := query2d min_lon min_lat max_lon max_lat
  match db qp.1 qp.2 with
  | Except.error e => Except.error e
  | Except.ok rows => Except.ok { ctype := "FeatureCollection", features := features2d rows }

/-- `get_3d_network_geojson`. -/
def get_3d_network_geojson (db : DB) (min_lon min_lat max_lon max_lat : Option Int) :
    Except String FeatureCollection :=
  let qp := query3d min_lon min_lat max_lon max_lat
  match db qp.1 qp.2 with
  | Except.error e => Except.error e
  | Except.ok rows => Except.ok { ctype := "FeatureCollection", features := features3d rows }

/-- `get_hdb_footprints_geojson`. -/
def get_hdb_footprints_geojson (db : DB) (min_lon min_lat max_lon max_lat : Option Int) :
    Except String FeatureCollection :=
  let qp := queryHdb min_lon min_lat max_lon max_lat
  match db qp.1 qp.2 with
  | Except.error e => Except.error e
  | Except.ok rows => Except.ok { ctype := "FeatureCollection", features := featuresHdb rows }

/-- The `/2d-corridors` endpoint: returns the handler result as the JSON response
body; an exception from the handler propagates out of the route. -/
def corridors_2d (db : DB) (min_lon min_lat max_lon max_lat : Option Int) :
    Except String FeatureCollection :=
  get_2d_corridors_geojson db min_lon min_lat max_lon max_lat

/-- The `/3d-network` endpoint. -/
def network_3d (db : DB) (min_lon min_lat max_lon max_lat : Option Int) :
    Except String FeatureCollection :=
  get_3d_network_geojson db min_lon min_lat max_lon max_lat

/-- The `/hdb-footprints` endpoint. -/
def hdb_footprints (db : DB) (min_lon min_lat max_lon max_lat : Option Int) :
    Except String FeatureCollection :=
  get_hdb_footprints_geojson db min_lon min_lat max_lon max_lat

/-- Split a character list at whitespace, accumulating the current word reversed. -/
def wsSplit : List Char → List Char → List String
  | [], acc => if acc.isEmpty then [] else [String.mk acc.reverse]
  | c :: cs, acc =>
      if c = ' ' || c = '\n' then
        if acc.isEmpty then wsSplit cs [] else String.mk acc.reverse :: wsSplit cs []
      else wsSplit cs (c :: acc)

/-- The whitespace-normalized word sequence of a SQL string, used to state what a
query says independently of the indentation of the source literal. -/
def sqlWords (s : String) : List String := wsSplit s.data []

/-- The body returned by `/health`: `{"status": ..., "database": ...}`. -/
structure HealthResponse where
  status : String
  database : String
deriving DecidableEq

/-- The `/health` endpoint: probe the store with `SELECT 1`; on success report
`database = "ok"`, on an exception report its text; never raise. -/
def health (db : DB) : HealthResponse :=
  match db "SELECT 1" [] with
  | Except.ok _ => { status := "ok", database := "ok" }
  | Except.error e => { status := "ok", database := e }

/-- Observable resource events of one database-backed fetch. -/
inductive DbEvent where
  | connOpen : DbEvent
  | curOpen : DbEvent
  | exec (query : String) (params : List Int) : DbEvent
  | curClose : DbEvent
  | connClose : DbEvent
deriving DecidableEq

/-- Semantics of a Python `with` block over an event trace: the release event is
emitted after the body unconditionally — the context-manager protocol runs
`__exit__` both when the body returns a value and when it raises. -/
def withScope {β : Type} (openEvt closeEvt : DbEvent)
    (body : List DbEvent × Except String β) : List DbEvent × Except String β :=
  (openEvt :: body.1 ++ [closeEvt], body.2)

/-- The resource trace of the fetch shared by the three dataset handlers:
`with psycopg2.connect(...)` around `with conn.cursor(...)` around
`cur.execute(query, params); rows = cur.fetchall()`, for an already built
(query, params) pair. -/
def fetchTrace (db : DB) (qp : String × List Int) :
    List DbEvent × Except String (List Row) :=
  withScope DbEvent.connOpen DbEvent.connClose
    (withScope DbEvent.curOpen DbEvent.curClose
      ([DbEvent.exec qp.1 qp.2], db qp.1 qp.2))

/- Helper lemmas. -/

/-- A key just removed can no longer be looked up. -/
theorem lookupKey_removeKey_self (r : Row) (k : String) :
    lookupKey (removeKey r k) k = none := by
  unfold lookupKey removeKey
  have hfind : List.find? (fun p => p.1 == k) (List.filter (fun p => p.1 != k) r) = none := by
    rw [List.find?_eq_none]
    intro p hp
    have hmem := (List.mem_filter.mp hp).2
    simpa using hmem
  rw [hfind]
  rfl

/-- Characterization of the 2d assembly loop: one feature, in order, per row whose
popped geometry is not `None`; properties are the row minus `geom` and `id`. -/
theorem features2d_eq_filter_map (rows : List Row) :
    features2d rows =
      (rows.filter (fun r => !(popDefault r "geom" == Value.null))).map
        (fun r =>
          { ftype := "Feature", properties := removeKey (removeKey r "geom") "id",
            geometry := popDefault r "geom" }) := by
  induction rows with
  | nil => rfl
  | cons r rest ih =>
      by_cases h : popDefault r "geom" = Value.null
      · simp [features2d, h, ih]
      · simp [features2d, h, ih]

/-- The 3d assembly loop is the same transformation. -/
theorem features3d_eq_features2d (rows : List Row) :
    features3d rows = features2d rows := by
  induction rows with
  | nil => rfl
  | cons r rest ih =>
      by_cases h : popDefault r "geom" = Value.null
      · simp [features2d, features3d, h, ih]
      · simp [features2d, features3d, h, ih]

/-- The hdb assembly loop is the same transformation. -/
theorem featuresHdb_eq_features2d (rows : List Row) :
    featuresHdb rows = features2d rows := by
  induction rows with
  | nil => rfl
  | cons r rest ih =>
      by_cases h : popDefault r "geom" = Value.null
      · simp [features2d, featuresHdb, h, ih]
      · simp [features2d, featuresHdb, h, ih]

/-- The spatial predicate appended when all four bbox values are present, written
out as the spec describes it: intersection of `geom` with the parameter envelope
in SRID 4326. -/
def envelopePredicateSql : String :=
  " WHERE ST_Intersects(geom, ST_MakeEnvelope(%s, %s, %s, %s, 4326))"

/-- The ordering clause always appended: ascending order on the internal id. -/
def orderByIdSql : String := " ORDER BY id"

/-- The query text of the 2d fetch depends only on whether all four bbox values
are present. -/
theorem query2d_fst (a b c d : Option Int) :
    (query2d a b c d).1 =
      cond (a.isSome && b.isSome && c.isSome && d.isSome)
        (select2d ++ envelopePredicateSql ++ orderByIdSql)
        (select2d ++ orderByIdSql) := by
  cases a <;> cases b <;> cases c <;> cases d <;> rfl

/-- The query text of the 3d fetch depends only on whether all four bbox values
are present. -/
theorem query3d_fst (a b c d : Option Int) :
    (query3d a b c d).1 =
      cond (a.isSome && b.isSome && c.isSome && d.isSome)
        (select3d ++ envelopePredicateSql ++ orderByIdSql)
        (select3d ++ orderByIdSql) := by
  cases a <;> cases b <;> cases c <;> cases d <;> rfl

/-- The query text of the hdb fetch depends only on whether all four bbox values
are present. -/
theorem queryHdb_fst (a b c d : Option Int) :
    (queryHdb a b c d).1 =
      cond (a.isSome && b.isSome && c.isSome && d.isSome)
        (selectHdb ++ envelopePredicateSql ++ orderByIdSql)
        (selectHdb ++ orderByIdSql) := by
  cases a <;> cases b <;> cases c <;> cases d <;> rfl

/-- With any bbox value missing, each query builder coincides with the
no-filter query. -/
theorem query_partial_eq_none (a b c d : Option Int)
    (h : a = none ∨ b = none ∨ c = none ∨ d = none) :
    query2d a b c d = query2d none none none none
  ∧ query3d a b c d = query3d none none none none
  ∧ queryHdb a b c d = queryHdb none none none none := by
  cases a <;> cases b <;> cases c <;> cases d <;>
    first
      | exact h.elim (fun h1 => Option.noConfusion h1)
          (fun h1 => h1.elim (fun h2 => Option.noConfusion h2)
            (fun h2 => h2.elim (fun h3 => Option.noConfusion h3)
              (fun h3 => Option.noConfusion h3)))
      | exact ⟨rfl, rfl, rfl⟩

/-- Every feature emitted by the 2d loop has a non-null geometry. -/
theorem features2d_all_geom_not_null (rows : List Row) :
    ((features2d rows).all (fun f => !(f.geometry == Value.null))) = true := by
  induction rows with
  | nil => rfl
  | cons r rest ih =>
      by_cases h : popDefault r "geom" = Value.null
      · simpa [features2d, h] using ih
      · simp [features2d, h, ih]

/-- Emitted features plus dropped null-geometry rows account for every input row. -/
theorem features2d_length_add_null_count (rows : List Row) :
    (features2d rows).length
      + rows.countP (fun r => popDefault r "geom" == Value.null) = rows.length := by
  induction rows with
  | nil => rfl
  | cons r rest ih =>
      by_cases h : popDefault r "geom" = Value.null
      · have hb : (popDefault r "geom" == Value.null) = true := by simpa using h
        simp [features2d, List.countP_cons, if_pos h, hb]
        omega
      · have hb : (popDefault r "geom" == Value.null) = false := by simpa using h
        simp [features2d, List.countP_cons, if_neg h, hb]
        omega

/-- The `id` key is absent from the properties of every feature the 2d loop emits. -/
theorem features2d_all_id_stripped (rows : List Row) :
    ((features2d rows).all (fun f => (lookupKey f.properties "id").isNone)) = true := by
  induction rows with
  | nil => rfl
  | cons r rest ih =>
      by_cases h : popDefault r "geom" = Value.null
      · simpa [features2d, h] using ih
      · simp [features2d, h, ih, lookupKey_removeKey_self]

/-- Claim C1: for every dataset kind, the fetch builds a query selecting that
kind's fixed column set from its relation plus the geometry column serialized as
GeoJSON (`ST_AsGeoJSON(geom)::json AS geom`); if and only if all four bbox values
are supplied it appends the spatial-intersection predicate
`ST_Intersects(geom, ST_MakeEnvelope(min_lon, min_lat, max_lon, max_lat, 4326))`
with the four values passed as parameters; and it always appends
`ORDER BY id` (the internal id, ascending). -/
theorem fetch_builds_expected_query :
    (∀ w x y z : Int,
        query2d (some w) (some x) (some y) (some z)
          = (select2d ++ envelopePredicateSql ++ orderByIdSql, [w, x, y, z])
      ∧ query3d (some w) (some x) (some y) (some z)
          = (select3d ++ envelopePredicateSql ++ orderByIdSql, [w, x, y, z])
      ∧ queryHdb (some w) (some x) (some y) (some z)
          = (selectHdb ++ envelopePredicateSql ++ orderByIdSql, [w, x, y, z]))
  ∧ (∀ a b c d : Option Int, (a = none ∨ b = none ∨ c = none ∨ d = none) →
        query2d a b c d = (select2d ++ orderByIdSql, [])
      ∧ query3d a b c d = (select3d ++ orderByIdSql, [])
      ∧ queryHdb a b c d = (selectHdb ++ orderByIdSql, []))
  ∧ envelopePredicateSql
      = " WHERE ST_Intersects(geom, ST_MakeEnvelope(%s, %s, %s, %s, 4326))"
  ∧ orderByIdSql = " ORDER BY id"
  ∧ sqlWords select2d
      = ["SELECT", "id,", "\"OBJECTID\",", "\"PLN_AREA_N\",", "\"PLN_AREA_C\",",
         "\"CA_IND\",", "\"REGION_N\",", "\"REGION_C\",", "\"INC_CRC\",",
         "\"FMEL_UPD_D\",", "\"SHAPE.AREA\",", "\"SHAPE.LEN\",",
         "\"Total_Population\",", "\"Total_Males\",", "\"Total_Females\",",
         "\"LabourForce_Total_Total\",", "\"LabourForce_Total_Males\",",
         "\"LabourForce_Total_Females\",", "\"LabourForce_Employed_Total\",",
         "\"LabourForce_Employed_Males\",", "\"LabourForce_Employed_Females\",",
         "\"LabourForce_Unemployed_Total\",", "\"LabourForce_Unemployed_Males\",",
         "\"LabourForce_Unemployed_Females\",", "\"OutsidetheLabourForce_Total\",",
         "\"OutsidetheLabourForce_Males\",", "\"OutsidetheLabourForce_Females\",",
         "\"Area_km2\",", "\"Pop_Density\",", "\"priorityID\",",
         "ST_AsGeoJSON(geom)::json", "AS", "geom", "FROM", "corridors_2d_4326"]
  ∧ sqlWords select3d
      = ["SELECT", "id,", "min_altitude,", "corridor_type,", "max_altitude,",
         "volume_m3,", "\"priorityID\",", "ST_AsGeoJSON(geom)::json", "AS", "geom",
         "FROM", "network_3d_4326"]
  ∧ sqlWords selectHdb
      = ["SELECT", "id,", "feat_id,", "height,", "levels,",
         "ST_AsGeoJSON(geom)::json", "AS", "geom", "FROM", "hdb_footprints_4326"] := by
  refine ⟨fun w x y z => ⟨rfl, rfl, rfl⟩, ?_, rfl, rfl, by decide, by decide, by decide⟩
  intro a b c d h
  have h2 := query_partial_eq_none a b c d h
  exact ⟨h2.1.trans rfl, h2.2.1.trans rfl, h2.2.2.trans rfl⟩

/-- Witness for C1: a concrete partial bbox yields the unfiltered 2d query. -/
theorem fetch_builds_expected_query_witness :
    query2d (some 1) none (some 2) (some 3) = (select2d ++ orderByIdSql, []) :=
  (fetch_builds_expected_query.2.1 (some 1) none (some 2) (some 3)
    (Or.inr (Or.inl rfl))).1

/-- Claim C2: the assembly emits no feature for a null-or-missing-geometry row and
exactly one feature per remaining row, so the feature count equals the row count
minus the null-geometry row count (hence is at most the row count). -/
theorem assemble_drops_null_geometry_rows (rows : List Row) :
    ((features2d rows).all (fun f => !(f.geometry == Value.null)))
  ∧ (features2d rows).length
      + rows.countP (fun r => popDefault r "geom" == Value.null) = rows.length
  ∧ (features2d rows).length ≤ rows.length :=
  ⟨features2d_all_geom_not_null rows, features2d_length_add_null_count rows,
    Nat.le.intro (features2d_length_add_null_count rows)⟩

/-- Claim C3: the internal `id` key is absent from the properties of every feature
emitted by any of the three dataset assembly loops. -/
theorem internal_id_never_in_properties (rows : List Row) :
    ((features2d rows).all (fun f => (lookupKey f.properties "id").isNone))
  ∧ ((features3d rows).all (fun f => (lookupKey f.properties "id").isNone))
  ∧ ((featuresHdb rows).all (fun f => (lookupKey f.properties "id").isNone)) := by
  refine ⟨features2d_all_id_stripped rows, ?_, ?_⟩
  · rw [features3d_eq_features2d]
    exact features2d_all_id_stripped rows
  · rw [featuresHdb_eq_features2d]
    exact features2d_all_id_stripped rows

/-- Claim C5: for any rows the store returns, the assembled output is an
`ok` FeatureCollection whose `type` is the literal string, whose features appear
in input row order with at most one feature per row, and whose properties are the
row's fields unchanged except for removal of the `geom` column and the internal
`id`. -/
theorem assembled_collection_shape (rows : List Row) (a b c d : Option Int) :
    get_2d_corridors_geojson (fun _ _ => Except.ok rows) a b c d
      = Except.ok
          { ctype := "FeatureCollection",
            features :=
              (rows.filter (fun r => !(popDefault r "geom" == Value.null))).map
                (fun r =>
                  { ftype := "Feature",
                    properties := removeKey (removeKey r "geom") "id",
                    geometry := popDefault r "geom" }) } := by
  simp [get_2d_corridors_geojson, features2d_eq_filter_map]

/-- Claim C9: the three handlers share one row-to-feature transformation — on
identical input rows their assembly stages produce identical feature lists, and
with a store returning those rows (so that only the built query could differ) the
three handlers return identical FeatureCollections. -/
theorem assembly_stages_agree (rows : List Row) :
    features2d rows = features3d rows
  ∧ features2d rows = featuresHdb rows
  ∧ (∀ a b c d a2 b2 c2 d2 : Option Int,
        get_3d_network_geojson (fun _ _ => Except.ok rows) a b c d
          = get_2d_corridors_geojson (fun _ _ => Except.ok rows) a2 b2 c2 d2
      ∧ get_hdb_footprints_geojson (fun _ _ => Except.ok rows) a b c d
          = get_2d_corridors_geojson (fun _ _ => Except.ok rows) a2 b2 c2 d2) := by
  refine ⟨(features3d_eq_features2d rows).symm, (featuresHdb_eq_features2d rows).symm,
    fun a b c d a2 b2 c2 d2 => ⟨?_, ?_⟩⟩
  · simp [get_3d_network_geojson, get_2d_corridors_geojson, features3d_eq_features2d]
  · simp [get_hdb_footprints_geojson, get_2d_corridors_geojson, featuresHdb_eq_features2d]

/-- A store stub returning no rows, used to instantiate universally quantified
statements at a concrete driver. -/
def dbEmpty : DB := fun _ _ => Except.ok []

/-- A store stub whose every call raises with a fixed message. -/
def dbDown : DB := fun _ _ => Except.error "connection refused"

/-- Claim C4: supplying any proper subset of the four bbox parameters behaves
identically to supplying none of them — the same unfiltered query is built and
the same full result is returned. -/
theorem partial_bbox_is_no_filter (db : DB) (a b c d : Option Int)
    (h : a = none ∨ b = none ∨ c = none ∨ d = none) :
    get_2d_corridors_geojson db a b c d
      = get_2d_corridors_geojson db none none none none
  ∧ get_3d_network_geojson db a b c d
      = get_3d_network_geojson db none none none none
  ∧ get_hdb_footprints_geojson db a b c d
      = get_hdb_footprints_geojson db none none none none
  ∧ query2d a b c d = query2d none none none none
  ∧ query3d a b c d = query3d none none none none
  ∧ queryHdb a b c d = queryHdb none none none none := by
  have h2 := query_partial_eq_none a b c d h
  refine ⟨?_, ?_, ?_, h2.1, h2.2.1, h2.2.2⟩
  · simp only [get_2d_corridors_geojson, h2.1]
  · simp only [get_3d_network_geojson, h2.2.1]
  · simp only [get_hdb_footprints_geojson, h2.2.2]

/-- Witness for C4: one missing bbox value at a concrete driver gives the same
response as no bbox at all. -/
theorem partial_bbox_is_no_filter_witness :
    get_2d_corridors_geojson dbEmpty (some 1) none (some 2) (some 3)
      = get_2d_corridors_geojson dbEmpty none none none none :=
  (partial_bbox_is_no_filter dbEmpty (some 1) none (some 2) (some 3)
    (Or.inr (Or.inl rfl))).1

/-- Claim C6: `/health` never fails: it probes the store with `SELECT 1`, returns
`{status: "ok", database: "ok"}` when the probe succeeds, and catches any probe
exception, returning `{status: "ok", database: <error text>}` instead of
propagating it. -/
theorem health_always_ok (db : DB) :
    (health db).status = "ok"
  ∧ (∀ rows, db "SELECT 1" [] = Except.ok rows →
      health db = { status := "ok", database := "ok" })
  ∧ (∀ e, db "SELECT 1" [] = Except.error e →
      health db = { status := "ok", database := e }) := by
  refine ⟨?_, ?_, ?_⟩
  · cases hdb : db "SELECT 1" [] <;> simp [health, hdb]
  · intro rows hr
    simp [health, hr]
  · intro e he
    simp [health, he]

/-- Witness for C6: a down store still yields a success body carrying the error
text. -/
theorem health_always_ok_witness :
    health dbDown = { status := "ok", database := "connection refused" } :=
  (health_always_ok dbDown).2.2 "connection refused" rfl

/-- Claim C7: each dataset endpoint propagates a store failure out of the handler
unchanged — it never catches it and never answers successfully with partial data:
a success is exactly the full assembled collection for the fetched rows. -/
theorem dataset_errors_propagate (db : DB) (a b c d : Option Int) :
    (∀ e, db (query2d a b c d).1 (query2d a b c d).2 = Except.error e →
        corridors_2d db a b c d = Except.error e)
  ∧ (∀ rows, db (query2d a b c d).1 (query2d a b c d).2 = Except.ok rows →
        corridors_2d db a b c d
          = Except.ok { ctype := "FeatureCollection", features := features2d rows })
  ∧ (∀ e, db (query3d a b c d).1 (query3d a b c d).2 = Except.error e →
        network_3d db a b c d = Except.error e)
  ∧ (∀ rows, db (query3d a b c d).1 (query3d a b c d).2 = Except.ok rows →
        network_3d db a b c d
          = Except.ok { ctype := "FeatureCollection", features := features3d rows })
  ∧ (∀ e, db (queryHdb a b c d).1 (queryHdb a b c d).2 = Except.error e →
        hdb_footprints db a b c d = Except.error e)
  ∧ (∀ rows, db (queryHdb a b c d).1 (queryHdb a b c d).2 = Except.ok rows →
        hdb_footprints db a b c d
          = Except.ok { ctype := "FeatureCollection", features := featuresHdb rows }) := by
  refine ⟨fun e he => ?_, fun rows hr => ?_, fun e he => ?_, fun rows hr => ?_,
    fun e he => ?_, fun rows hr => ?_⟩
  · simp [corridors_2d, get_2d_corridors_geojson, he]
  · simp [corridors_2d, get_2d_corridors_geojson, hr]
  · simp [network_3d, get_3d_network_geojson, he]
  · simp [network_3d, get_3d_network_geojson, hr]
  · simp [hdb_footprints, get_hdb_footprints_geojson, he]
  · simp [hdb_footprints, get_hdb_footprints_geojson, hr]

/-- Witness for C7: a down store makes the 2d endpoint fail with the store's
error. -/
theorem dataset_errors_propagate_witness :
    corridors_2d dbDown none none none none = Except.error "connection refused" :=
  (dataset_errors_propagate dbDown none none none none).1 "connection refused" rfl

/-- Claim C8: in a database-backed fetch the connection and cursor are each
acquired once and released exactly once, the releases following the body on every
exit path — the trace and result are the same whether the execution step returns
rows or raises — and the traced fetch computes exactly what the handler returns. -/
theorem scoped_connection_released (db : DB) (qp : String × List Int) :
    (fetchTrace db qp).1
      = [DbEvent.connOpen, DbEvent.curOpen, DbEvent.exec qp.1 qp.2,
         DbEvent.curClose, DbEvent.connClose]
  ∧ ((fetchTrace db qp).1.count DbEvent.connClose = 1
      ∧ (fetchTrace db qp).1.count DbEvent.curClose = 1
      ∧ (fetchTrace db qp).1.count DbEvent.connOpen = 1
      ∧ (fetchTrace db qp).1.count DbEvent.curOpen = 1)
  ∧ (fetchTrace db qp).2 = db qp.1 qp.2
  ∧ (∀ a b c d : Option Int,
        Except.map
            (fun rows => { ctype := "FeatureCollection", features := features2d rows })
            (fetchTrace db (query2d a b c d)).2
          = get_2d_corridors_geojson db a b c d) := by
  refine ⟨rfl, ⟨rfl, rfl, rfl, rfl⟩, rfl, ?_⟩
  intro a b c d
  cases hdb : db (query2d a b c d).1 (query2d a b c d).2 <;>
    simp [fetchTrace, withScope, get_2d_corridors_geojson, Except.map, hdb]

/-- Claim C10: the SQL text built by each dataset fetch depends only on whether
all four bbox values are present, never on the values themselves; the values reach
execution solely through the separate parameter tuple. -/
theorem query_text_value_independent :
    (∀ a b c d a2 b2 c2 d2 : Option Int,
        (a.isSome && b.isSome && c.isSome && d.isSome)
          = (a2.isSome && b2.isSome && c2.isSome && d2.isSome) →
        (query2d a b c d).1 = (query2d a2 b2 c2 d2).1
      ∧ (query3d a b c d).1 = (query3d a2 b2 c2 d2).1
      ∧ (queryHdb a b c d).1 = (queryHdb a2 b2 c2 d2).1)
  ∧ (∀ w x y z : Int,
        (query2d (some w) (some x) (some y) (some z)).2 = [w, x, y, z]
      ∧ (query3d (some w) (some x) (some y) (some z)).2 = [w, x, y, z]
      ∧ (queryHdb (some w) (some x) (some y) (some z)).2 = [w, x, y, z]) := by
  refine ⟨fun a b c d a2 b2 c2 d2 h => ?_, fun w x y z => ⟨rfl, rfl, rfl⟩⟩
  rw [query2d_fst, query2d_fst, query3d_fst, query3d_fst, queryHdb_fst,
    queryHdb_fst, h]
  exact ⟨rfl, rfl, rfl⟩

/-- Witness for C10: two different fully specified bboxes produce the same 2d
query text. -/
theorem query_text_value_independent_witness :
    (query2d (some 1) (some 2) (some 3) (some 4)).1
      = (query2d (some 5) (some 6) (some 7) (some 8)).1 :=
  (query_text_value_independent.1 (some 1) (some 2) (some 3) (some 4)
    (some 5) (some 6) (some 7) (some 8) rfl).1

end UavBackend
